import Mathlib

/-!
# Creature events: registry and dispatcher operations

A shallow embedding of `src/creatureevent.cpp`.

* Containers are lists: `loginEvents`, `logoutEvents`, `advanceEvents` are the
  sequences of the source, `creatureEvents` is the name-keyed map, kept as an
  association list whose keys are pairwise distinct as long as entries are
  added through `emplace` (insert only when the key is absent).
* Pointers (`Player*`, `Creature*`, `Item*`) are natural numbers, `0` being
  `nullptr`.
* The scripting engine (`LuaScriptInterface`, `luascript.h` / `luascript.cpp`)
  is not part of the translated file.  Every dispatcher operation is therefore
  written against a record of the engine primitives it calls, over an arbitrary
  engine state `σ`; the operations thread that state explicitly.
* Console output (`std::cout`) is not modelled.
-/

namespace CreatureScripts

/-! ## Data model -/

/-- Event categories, the enumeration `CreatureEventType_t`. -/
inductive CreatureEventType_t
  | CREATURE_EVENT_NONE
  | CREATURE_EVENT_LOGIN
  | CREATURE_EVENT_LOGOUT
  | CREATURE_EVENT_THINK
  | CREATURE_EVENT_PREPAREDEATH
  | CREATURE_EVENT_DEATH
  | CREATURE_EVENT_KILL
  | CREATURE_EVENT_ADVANCE
  | CREATURE_EVENT_MODALWINDOW
  | CREATURE_EVENT_TEXTEDIT
  | CREATURE_EVENT_HEALTHCHANGE
  | CREATURE_EVENT_MANACHANGE
  | CREATURE_EVENT_EXTENDED_OPCODE
  deriving DecidableEq, Repr

open CreatureEventType_t

/-- One event definition: the members of `CreatureEvent` and of its base class
`Event` that `creatureevent.cpp` reads or writes.  `scriptInterface` is the
pointer to the owning script interface, kept as a handle. -/
structure CreatureEvent where
  scriptId : Int
  scriptInterface : Nat
  scripted : Bool
  fromLua : Bool
  eventName : String
  type : CreatureEventType_t
  loaded : Bool
  deriving DecidableEq, Repr

/-- Accessor `getEventType()`. -/
def CreatureEvent.getEventType (self : CreatureEvent) : CreatureEventType_t := self.type

/-- Accessor `getName()`. -/
def CreatureEvent.getName (self : CreatureEvent) : String := self.eventName

/-- Accessor `isLoaded()`. -/
def CreatureEvent.isLoaded (self : CreatureEvent) : Bool := self.loaded

/-- The four containers of `CreatureEvents`. -/
structure CreatureEvents where
  creatureEvents : List (String × CreatureEvent)
  loginEvents : List CreatureEvent
  logoutEvents : List CreatureEvent
  advanceEvents : List CreatureEvent
  deriving DecidableEq, Repr

/-- Combat types are the integers of the enumeration `CombatType_t`. -/
abbrev CombatType_t := Nat

/-- Modelled from the spec: the enumerator of the "healing" combat type.  The
header declaring `CombatType_t` is not among the sources; only the fact that
this value is one fixed combat type is used. -/
def COMBAT_HEALING : CombatType_t := 128

/-- Modelled from the spec: the enumerator of the "physical" combat type, used
in examples only. -/
def COMBAT_PHYSICALDAMAGE : CombatType_t := 1

/-- One component of a damage record (`damage.primary`, `damage.secondary`). -/
structure DamageComponent where
  type : CombatType_t
  value : Int
  deriving DecidableEq, Repr

/-- The damage record `CombatDamage`. -/
structure CombatDamage where
  primary : DamageComponent
  secondary : DamageComponent
  origin : Nat
  deriving DecidableEq, Repr

/-! ## The scripting engine, as the record of primitives the source calls -/

/-- The primitives of `LuaScriptInterface` (and of the Lua C API) that
`creatureevent.cpp` calls, as transformers of an engine state `σ`.
`getScriptEnv()` and `getLuaState()` only hand out the state and have no field.
`reInitState` is `BaseEvents::reInitState`. -/
structure LuaScriptInterface (σ : Type) where
  reserveScriptEnv : σ → Bool × σ
  resetScriptEnv : σ → σ
  setScriptId : Int → Nat → σ → σ
  pushFunction : Int → σ → σ
  pushUserdata : Nat → σ → σ
  setMetatable : Int → String → σ → σ
  setCreatureMetatable : Int → Nat → σ → σ
  lua_pushnumber : Int → σ → σ
  lua_pushnil : σ → σ
  pushThing : Nat → σ → σ
  pushBoolean : Bool → σ → σ
  pushString : String → σ → σ
  pushCombatDamage : CombatDamage → σ → σ
  protectedCall : Nat → Nat → σ → Int × σ
  callFunction : Nat → σ → Bool × σ
  callVoidFunction : Nat → σ → σ
  popString : σ → String × σ
  reportError : String → σ → σ
  getNumberInt32 : Int → σ → Int
  getNumberCombatType : Int → σ → CombatType_t
  lua_pop : Nat → σ → σ
  reInitState : Bool → σ → σ

variable {σ : Type}

/-! ## `CreatureEvents::clear` -/

/-- The erase loop of `clear` over the named map: an entry whose `fromLua`
equals the flag is erased, any other entry is stepped over. -/
def eraseNamed (fromLua : Bool) : List (String × CreatureEvent) → List (String × CreatureEvent)
  | [] => []
  | it :: rest =>
    if fromLua == it.2.fromLua then eraseNamed fromLua rest
    else it :: eraseNamed fromLua rest

/-- The erase loop of `clear` over one of the three hook sequences. -/
def eraseHooks (fromLua : Bool) : List CreatureEvent → List CreatureEvent
  | [] => []
  | it :: rest =>
    if fromLua == it.fromLua then eraseHooks fromLua rest
    else it :: eraseHooks fromLua rest

/-- `CreatureEvents::clear(fromLua)`: four erase loops, then `reInitState`. -/
def CreatureEvents.clear (iface : LuaScriptInterface σ) (self : CreatureEvents)
    (fromLua : Bool) (s : σ) : CreatureEvents × σ :=
  ({ creatureEvents := eraseNamed fromLua self.creatureEvents
     loginEvents := eraseHooks fromLua self.loginEvents
     logoutEvents := eraseHooks fromLua self.logoutEvents
     advanceEvents := eraseHooks fromLua self.advanceEvents },
   iface.reInitState fromLua s)

/-! ## Registration -/

/-- Lookup in the named map (`std::map::find`): the entry stored under `name`. -/
def findNamed (name : String) : List (String × CreatureEvent) → Option CreatureEvent
  | [] => none
  | it :: rest => if it.1 = name then some it.2 else findNamed name rest

/-- Insertion into the named map (`std::map::emplace`): when the key is already
present the map is left as it is and the flag is `false`; otherwise the entry
is added and the flag is `true`. -/
def emplace (m : List (String × CreatureEvent)) (name : String) (ev : CreatureEvent) :
    List (String × CreatureEvent) × Bool :=
  match findNamed name m with
  | some _ => (m, false)
  | none => (m ++ [(name, ev)], true)

/-- A configuration node (`pugi::xml_node`): its attributes, in document order. -/
structure xml_node where
  attributes : List (String × String)
  deriving DecidableEq, Repr

/-- The accessor `node.attribute(name)`: the value of the first attribute with
that name, `none` standing for the empty handle. -/
def xml_node.attribute (node : xml_node) (name : String) : Option String :=
  match node.attributes.find? (fun a => a.1 == name) with
  | some a => some a.2
  | none => none

/-- `CreatureEvents::registerEvent(event, node)`; the node is not read. -/
def CreatureEvents.registerEvent (self : CreatureEvents) (creatureEvent : CreatureEvent)
    (_node : xml_node) : Bool × CreatureEvents :=
  if creatureEvent.getEventType = CREATURE_EVENT_NONE then
    (false, self)
  else if creatureEvent.getEventType = CREATURE_EVENT_LOGIN then
    (true, { self with loginEvents := self.loginEvents ++ [creatureEvent] })
  else if creatureEvent.getEventType = CREATURE_EVENT_LOGOUT then
    (true, { self with logoutEvents := self.logoutEvents ++ [creatureEvent] })
  else if creatureEvent.getEventType = CREATURE_EVENT_ADVANCE then
    (true, { self with advanceEvents := self.advanceEvents ++ [creatureEvent] })
  else
    let name := creatureEvent.getName
    let result := emplace self.creatureEvents name creatureEvent
    (result.2, { self with creatureEvents := result.1 })

/-- `CreatureEvents::registerLuaEvent(event)`. -/
def CreatureEvents.registerLuaEvent (self : CreatureEvents) (creatureEvent : CreatureEvent) :
    Bool × CreatureEvents :=
  if creatureEvent.getEventType = CREATURE_EVENT_NONE then
    (false, self)
  else if creatureEvent.getEventType = CREATURE_EVENT_LOGIN then
    (true, { self with loginEvents := self.loginEvents ++ [creatureEvent] })
  else if creatureEvent.getEventType = CREATURE_EVENT_LOGOUT then
    (true, { self with logoutEvents := self.logoutEvents ++ [creatureEvent] })
  else if creatureEvent.getEventType = CREATURE_EVENT_ADVANCE then
    (true, { self with advanceEvents := self.advanceEvents ++ [creatureEvent] })
  else
    let name := creatureEvent.getName
    let result := emplace self.creatureEvents name creatureEvent
    (result.2, { self with creatureEvents := result.1 })

/-- `CreatureEvents::getEventByName(name, forceLoaded)`. -/
def CreatureEvents.getEventByName (self : CreatureEvents) (name : String)
    (forceLoaded : Bool) : Option CreatureEvent :=
  match findNamed name self.creatureEvents with
  | some ev => if !forceLoaded || ev.isLoaded then some ev else none
  | none => none

/-- Registration through either entry point: `registerLuaEvent` when `viaLua`
is set, `registerEvent` with the given node otherwise. -/
def CreatureEvents.registerVia (viaLua : Bool) (self : CreatureEvents)
    (creatureEvent : CreatureEvent) (node : xml_node) : Bool × CreatureEvents :=
  if viaLua then self.registerLuaEvent creatureEvent else self.registerEvent creatureEvent node

/-- The categories stored in the named map: every category that
`registerEvent` does not reject (`None`) or append to a hook sequence. -/
def addressable (t : CreatureEventType_t) : Bool :=
  t != CREATURE_EVENT_NONE && t != CREATURE_EVENT_LOGIN &&
    t != CREATURE_EVENT_LOGOUT && t != CREATURE_EVENT_ADVANCE

/-! ## Configuration -/

/-- The constructor `CreatureEvent(interface)`: type `None`, not loaded, empty
name.  The members of the base class `Event` (declared in `baseevents.h`, not
among the sources) start as not scripted, not from Lua, script id `0`; no
result below depends on these three values. -/
def CreatureEvent.new (interface : Nat) : CreatureEvent :=
  { scriptId := 0, scriptInterface := interface, scripted := false, fromLua := false,
    eventName := "", type := CREATURE_EVENT_NONE, loaded := false }

/-- Modelled from the spec: the helper `asLowerCaseString` of `tools.cpp`, which
is not among the sources.  The spec has the `type` value compared
"case-insensitive": every character is put in lower case (basic Latin letters
only, as `tolower` does in the C locale). -/
def asLowerCaseString (source : String) : String := ⟨source.data.map Char.toLower⟩

/-- Modelled from the spec: the helper `tfs_strcmp` of `tools.h`, which is not
among the sources.  The spec has the value "match one of the ... keywords";
the helper is read as `strcmp`: `true` (non-zero) when the two strings differ. -/
def tfs_strcmp (a b : String) : Bool := a != b

/-- `CreatureEvent::configureEvent(node)`: the result and the event as the call
leaves it. -/
def CreatureEvent.configureEvent (self : CreatureEvent) (node : xml_node) :
    Bool × CreatureEvent :=
  match node.attribute "name" with
  | none => (false, self)
  | some nameValue =>
    let self := { self with eventName := nameValue }
    match node.attribute "type" with
    | none => (false, self)
    | some typeValue =>
      let tmpStr := asLowerCaseString typeValue
      if !tfs_strcmp tmpStr "login" then
        (true, { self with type := CREATURE_EVENT_LOGIN, loaded := true })
      else if !tfs_strcmp tmpStr "logout" then
        (true, { self with type := CREATURE_EVENT_LOGOUT, loaded := true })
      else if !tfs_strcmp tmpStr "think" then
        (true, { self with type := CREATURE_EVENT_THINK, loaded := true })
      else if !tfs_strcmp tmpStr "preparedeath" then
        (true, { self with type := CREATURE_EVENT_PREPAREDEATH, loaded := true })
      else if !tfs_strcmp tmpStr "death" then
        (true, { self with type := CREATURE_EVENT_DEATH, loaded := true })
      else if !tfs_strcmp tmpStr "kill" then
        (true, { self with type := CREATURE_EVENT_KILL, loaded := true })
      else if !tfs_strcmp tmpStr "advance" then
        (true, { self with type := CREATURE_EVENT_ADVANCE, loaded := true })
      else if !tfs_strcmp tmpStr "modalwindow" then
        (true, { self with type := CREATURE_EVENT_MODALWINDOW, loaded := true })
      else if !tfs_strcmp tmpStr "textedit" then
        (true, { self with type := CREATURE_EVENT_TEXTEDIT, loaded := true })
      else if !tfs_strcmp tmpStr "healthchange" then
        (true, { self with type := CREATURE_EVENT_HEALTHCHANGE, loaded := true })
      else if !tfs_strcmp tmpStr "manachange" then
        (true, { self with type := CREATURE_EVENT_MANACHANGE, loaded := true })
      else if !tfs_strcmp tmpStr "extendedopcode" then
        (true, { self with type := CREATURE_EVENT_EXTENDED_OPCODE, loaded := true })
      else
        (false, self)

/-- `CreatureEvent::copyEvent(creatureEvent)`: script id, interface, scripted
flag and load state are taken from the other event. -/
def CreatureEvent.copyEvent (self creatureEvent : CreatureEvent) : CreatureEvent :=
  { self with scriptId := creatureEvent.scriptId
              scriptInterface := creatureEvent.scriptInterface
              scripted := creatureEvent.scripted
              loaded := creatureEvent.loaded }

/-- The recognised `type` keywords with their categories, as the specification
lists them. -/
def recognizedKeywords : List (String × CreatureEventType_t) :=
  [("login", CREATURE_EVENT_LOGIN), ("logout", CREATURE_EVENT_LOGOUT),
   ("think", CREATURE_EVENT_THINK), ("preparedeath", CREATURE_EVENT_PREPAREDEATH),
   ("death", CREATURE_EVENT_DEATH), ("kill", CREATURE_EVENT_KILL),
   ("advance", CREATURE_EVENT_ADVANCE), ("modalwindow", CREATURE_EVENT_MODALWINDOW),
   ("textedit", CREATURE_EVENT_TEXTEDIT), ("healthchange", CREATURE_EVENT_HEALTHCHANGE),
   ("manachange", CREATURE_EVENT_MANACHANGE),
   ("extendedopcode", CREATURE_EVENT_EXTENDED_OPCODE)]

/-- The category a `type` value names when compared without regard to case:
the category of the keyword equal to the value in lower case, if any. -/
def keywordCategory (typeValue : String) : Option CreatureEventType_t :=
  match recognizedKeywords.find? (fun kw => kw.1 == asLowerCaseString typeValue) with
  | some kw => some kw.2
  | none => none

/-! ## 32-bit signed arithmetic -/

/-- Smallest `int32_t`. -/
def INT32_MIN : Int := -2147483648

/-- Largest `int32_t`. -/
def INT32_MAX : Int := 2147483647

/-- Reduction of an integer to the `int32_t` range, two's complement. -/
def wrapInt32 (x : Int) : Int := (x + 2147483648) % 4294967296 - 2147483648

/-- `std::abs` on `int32_t`; the result is reduced to 32 bits, which decides
the one input (`INT32_MIN`) whose absolute value does not fit. -/
def std_abs (x : Int) : Int := wrapInt32 (if x < 0 then -x else x)

/-- Unary minus on `int32_t`, reduced to 32 bits. -/
def negInt32 (x : Int) : Int := wrapInt32 (-x)

/-! ## Dispatcher operations returning a boolean -/

/-- `CreatureEvent::executeOnLogin(player)`. -/
def CreatureEvent.executeOnLogin (iface : LuaScriptInterface σ) (self : CreatureEvent)
    (player : Nat) (s : σ) : Bool × σ :=
  let r := iface.reserveScriptEnv s
  if !r.1 then (false, r.2)
  else
    let s := iface.setScriptId self.scriptId self.scriptInterface r.2
    let s := iface.pushFunction self.scriptId s
    let s := iface.pushUserdata player s
    let s := iface.setMetatable (-1) "Player" s
    iface.callFunction 1 s

/-- `CreatureEvent::executeOnLogout(player)`. -/
def CreatureEvent.executeOnLogout (iface : LuaScriptInterface σ) (self : CreatureEvent)
    (player : Nat) (s : σ) : Bool × σ :=
  let r := iface.reserveScriptEnv s
  if !r.1 then (false, r.2)
  else
    let s := iface.setScriptId self.scriptId self.scriptInterface r.2
    let s := iface.pushFunction self.scriptId s
    let s := iface.pushUserdata player s
    let s := iface.setMetatable (-1) "Player" s
    iface.callFunction 1 s

/-- `CreatureEvent::executeOnThink(creature, interval)`. -/
def CreatureEvent.executeOnThink (iface : LuaScriptInterface σ) (self : CreatureEvent)
    (creature : Nat) (interval : Nat) (s : σ) : Bool × σ :=
  let r := iface.reserveScriptEnv s
  if !r.1 then (false, r.2)
  else
    let s := iface.setScriptId self.scriptId self.scriptInterface r.2
    let s := iface.pushFunction self.scriptId s
    let s := iface.pushUserdata creature s
    let s := iface.setCreatureMetatable (-1) creature s
    let s := iface.lua_pushnumber interval s
    iface.callFunction 2 s

/-- Pushing a creature that may be absent: the userdata with its metatable, or
`nil` for `nullptr`. -/
def pushCreatureOrNil (iface : LuaScriptInterface σ) (creature : Nat) (s : σ) : σ :=
  if creature != 0 then
    iface.setCreatureMetatable (-1) creature (iface.pushUserdata creature s)
  else
    iface.lua_pushnil s

/-- `CreatureEvent::executeOnPrepareDeath(creature, killer)`. -/
def CreatureEvent.executeOnPrepareDeath (iface : LuaScriptInterface σ) (self : CreatureEvent)
    (creature killer : Nat) (s : σ) : Bool × σ :=
  let r := iface.reserveScriptEnv s
  if !r.1 then (false, r.2)
  else
    let s := iface.setScriptId self.scriptId self.scriptInterface r.2
    let s := iface.pushFunction self.scriptId s
    let s := iface.pushUserdata creature s
    let s := iface.setCreatureMetatable (-1) creature s
    let s := pushCreatureOrNil iface killer s
    iface.callFunction 2 s

/-- `CreatureEvent::executeOnDeath(creature, corpse, killer, mostDamageKiller,
lastHitUnjustified, mostDamageUnjustified)`. -/
def CreatureEvent.executeOnDeath (iface : LuaScriptInterface σ) (self : CreatureEvent)
    (creature corpse killer mostDamageKiller : Nat)
    (lastHitUnjustified mostDamageUnjustified : Bool) (s : σ) : Bool × σ :=
  let r := iface.reserveScriptEnv s
  if !r.1 then (false, r.2)
  else
    let s := iface.setScriptId self.scriptId self.scriptInterface r.2
    let s := iface.pushFunction self.scriptId s
    let s := iface.pushUserdata creature s
    let s := iface.setCreatureMetatable (-1) creature s
    let s := iface.pushThing corpse s
    let s := pushCreatureOrNil iface killer s
    let s := pushCreatureOrNil iface mostDamageKiller s
    let s := iface.pushBoolean lastHitUnjustified s
    let s := iface.pushBoolean mostDamageUnjustified s
    iface.callFunction 6 s

/-- `CreatureEvent::executeAdvance(player, skill, oldLevel, newLevel)`. -/
def CreatureEvent.executeAdvance (iface : LuaScriptInterface σ) (self : CreatureEvent)
    (player : Nat) (skill oldLevel newLevel : Nat) (s : σ) : Bool × σ :=
  let r := iface.reserveScriptEnv s
  if !r.1 then (false, r.2)
  else
    let s := iface.setScriptId self.scriptId self.scriptInterface r.2
    let s := iface.pushFunction self.scriptId s
    let s := iface.pushUserdata player s
    let s := iface.setMetatable (-1) "Player" s
    let s := iface.lua_pushnumber skill s
    let s := iface.lua_pushnumber oldLevel s
    let s := iface.lua_pushnumber newLevel s
    iface.callFunction 4 s

/-- `CreatureEvent::executeTextEdit(player, item, text)`. -/
def CreatureEvent.executeTextEdit (iface : LuaScriptInterface σ) (self : CreatureEvent)
    (player item : Nat) (text : String) (s : σ) : Bool × σ :=
  let r := iface.reserveScriptEnv s
  if !r.1 then (false, r.2)
  else
    let s := iface.setScriptId self.scriptId self.scriptInterface r.2
    let s := iface.pushFunction self.scriptId s
    let s := iface.pushUserdata player s
    let s := iface.setMetatable (-1) "Player" s
    let s := iface.pushThing item s
    let s := iface.pushString text s
    iface.callFunction 3 s

/-! ## Dispatcher operations returning nothing -/

/-- `CreatureEvent::executeOnKill(creature, target, lastHit)`. -/
def CreatureEvent.executeOnKill (iface : LuaScriptInterface σ) (self : CreatureEvent)
    (creature target : Nat) (lastHit : Bool) (s : σ) : σ :=
  let r := iface.reserveScriptEnv s
  if !r.1 then r.2
  else
    let s := iface.setScriptId self.scriptId self.scriptInterface r.2
    let s := iface.pushFunction self.scriptId s
    let s := iface.pushUserdata creature s
    let s := iface.setCreatureMetatable (-1) creature s
    let s := iface.pushUserdata target s
    let s := iface.setCreatureMetatable (-1) target s
    let s := iface.pushBoolean lastHit s
    iface.callVoidFunction 3 s

/-- `CreatureEvent::executeModalWindow(player, modalWindowId, buttonId, choiceId)`. -/
def CreatureEvent.executeModalWindow (iface : LuaScriptInterface σ) (self : CreatureEvent)
    (player : Nat) (modalWindowId buttonId choiceId : Nat) (s : σ) : σ :=
  let r := iface.reserveScriptEnv s
  if !r.1 then r.2
  else
    let s := iface.setScriptId self.scriptId self.scriptInterface r.2
    let s := iface.pushFunction self.scriptId s
    let s := iface.pushUserdata player s
    let s := iface.setMetatable (-1) "Player" s
    let s := iface.lua_pushnumber modalWindowId s
    let s := iface.lua_pushnumber buttonId s
    let s := iface.lua_pushnumber choiceId s
    iface.callVoidFunction 4 s

/-- `CreatureEvent::executeExtendedOpcode(player, opcode, buffer)`. -/
def CreatureEvent.executeExtendedOpcode (iface : LuaScriptInterface σ) (self : CreatureEvent)
    (player : Nat) (opcode : Nat) (buffer : String) (s : σ) : σ :=
  let r := iface.reserveScriptEnv s
  if !r.1 then r.2
  else
    let s := iface.setScriptId self.scriptId self.scriptInterface r.2
    let s := iface.pushFunction self.scriptId s
    let s := iface.pushUserdata player s
    let s := iface.setMetatable (-1) "Player" s
    let s := iface.lua_pushnumber opcode s
    let s := iface.pushString buffer s
    iface.callVoidFunction 3 s

/-! ## The two mutation hooks -/

/-- `CreatureEvent::executeHealthChange(creature, attacker, damage)`: the damage
record as the call leaves it, and the engine state. -/
def CreatureEvent.executeHealthChange (iface : LuaScriptInterface σ) (self : CreatureEvent)
    (creature attacker : Nat) (damage : CombatDamage) (s : σ) : CombatDamage × σ :=
  let r := iface.reserveScriptEnv s
  if !r.1 then (damage, r.2)
  else
    let s := iface.setScriptId self.scriptId self.scriptInterface r.2
    let s := iface.pushFunction self.scriptId s
    let s := iface.pushUserdata creature s
    let s := iface.setCreatureMetatable (-1) creature s
    let s := pushCreatureOrNil iface attacker s
    let s := iface.pushCombatDamage damage s
    let c := iface.protectedCall 7 4 s
    if c.1 != 0 then
      let msg := iface.popString c.2
      let s := iface.reportError msg.1 msg.2
      (damage, iface.resetScriptEnv s)
    else
      let s := c.2
      let primaryValue := std_abs (iface.getNumberInt32 (-4) s)
      let primaryType := iface.getNumberCombatType (-3) s
      let secondaryValue := std_abs (iface.getNumberInt32 (-2) s)
      let secondaryType := iface.getNumberCombatType (-1) s
      let s := iface.lua_pop 4 s
      let damage :=
        if primaryType != COMBAT_HEALING then
          { damage with primary := { type := primaryType, value := negInt32 primaryValue }
                        secondary := { type := secondaryType, value := negInt32 secondaryValue } }
        else
          { damage with primary := { type := primaryType, value := primaryValue }
                        secondary := { type := secondaryType, value := secondaryValue } }
      (damage, iface.resetScriptEnv s)

/-- `CreatureEvent::executeManaChange(creature, attacker, damage)`. -/
def CreatureEvent.executeManaChange (iface : LuaScriptInterface σ) (self : CreatureEvent)
    (creature attacker : Nat) (damage : CombatDamage) (s : σ) : CombatDamage × σ :=
  let r := iface.reserveScriptEnv s
  if !r.1 then (damage, r.2)
  else
    let s := iface.setScriptId self.scriptId self.scriptInterface r.2
    let s := iface.pushFunction self.scriptId s
    let s := iface.pushUserdata creature s
    let s := iface.setCreatureMetatable (-1) creature s
    let s := pushCreatureOrNil iface attacker s
    let s := iface.pushCombatDamage damage s
    let c := iface.protectedCall 7 4 s
    if c.1 != 0 then
      let msg := iface.popString c.2
      let s := iface.reportError msg.1 msg.2
      (damage, iface.resetScriptEnv s)
    else
      let s := c.2
      let primaryValue := iface.getNumberInt32 (-4) s
      let primaryType := iface.getNumberCombatType (-3) s
      let secondaryValue := iface.getNumberInt32 (-2) s
      let secondaryType := iface.getNumberCombatType (-1) s
      let s := iface.lua_pop 4 s
      ({ damage with primary := { type := primaryType, value := primaryValue }
                     secondary := { type := secondaryType, value := secondaryValue } },
       iface.resetScriptEnv s)

/-- The engine state in which the script has just returned to
`executeHealthChange` / `executeManaChange`: the result of the protected call,
made after a successful reservation and the seven pushes. -/
def afterProtectedCall (iface : LuaScriptInterface σ) (self : CreatureEvent)
    (creature attacker : Nat) (damage : CombatDamage) (s : σ) : Int × σ :=
  let s := (iface.reserveScriptEnv s).2
  let s := iface.setScriptId self.scriptId self.scriptInterface s
  let s := iface.pushFunction self.scriptId s
  let s := iface.pushUserdata creature s
  let s := iface.setCreatureMetatable (-1) creature s
  let s := pushCreatureOrNil iface attacker s
  let s := iface.pushCombatDamage damage s
  iface.protectedCall 7 4 s

/-! ## The three broadcast entry points -/

/-- The loop shared by `playerLogin`, `playerLogout` and `playerAdvance`: the
hooks are executed in sequence order; the first one that returns `false` ends
the loop with `false`; after the last one the result is `true`. -/
def fireHooks (exec : CreatureEvent → σ → Bool × σ) : List CreatureEvent → σ → Bool × σ
  | [], s => (true, s)
  | it :: rest, s =>
    let r := exec it s
    if !r.1 then (false, r.2) else fireHooks exec rest r.2

/-- `CreatureEvents::playerLogin(player)`. -/
def CreatureEvents.playerLogin (iface : LuaScriptInterface σ) (self : CreatureEvents)
    (player : Nat) (s : σ) : Bool × σ :=
  fireHooks (fun it => it.executeOnLogin iface player) self.loginEvents s

/-- `CreatureEvents::playerLogout(player)`. -/
def CreatureEvents.playerLogout (iface : LuaScriptInterface σ) (self : CreatureEvents)
    (player : Nat) (s : σ) : Bool × σ :=
  fireHooks (fun it => it.executeOnLogout iface player) self.logoutEvents s

/-- `CreatureEvents::playerAdvance(player, skill, oldLevel, newLevel)`. -/
def CreatureEvents.playerAdvance (iface : LuaScriptInterface σ) (self : CreatureEvents)
    (player : Nat) (skill oldLevel newLevel : Nat) (s : σ) : Bool × σ :=
  fireHooks (fun it => it.executeAdvance iface player skill oldLevel newLevel)
    self.advanceEvents s

/-- The engine state after each hook of `hooks` has been executed once, in
order, whatever it returned. -/
def stateAfter (exec : CreatureEvent → σ → Bool × σ) (hooks : List CreatureEvent) (s : σ) : σ :=
  hooks.foldl (fun st it => (exec it st).2) s

/-- The value returned by the hook at position `k` when the hooks before it
have been executed in order. -/
def outcomeAt (exec : CreatureEvent → σ → Bool × σ) (hooks : List CreatureEvent) (s : σ)
    (k : Nat) : Bool :=
  match hooks.get? k with
  | some it => (exec it (stateAfter exec (hooks.take k) s)).1
  | none => true

/-- Veto iteration, as the specification words it, for a run of `hooks` from
state `s` that ended with result and state `r`: the result is `true` exactly
when every hook returned `true`, and then every hook has been executed; when
the hook at position `k` is the first to return `false`, exactly the hooks at
positions `0..k` have been executed, in order, and the result is `false`. -/
def VetoIteration (exec : CreatureEvent → σ → Bool × σ) (hooks : List CreatureEvent) (s : σ)
    (r : Bool × σ) : Prop :=
  (r.1 = true ↔ ∀ k, k < hooks.length → outcomeAt exec hooks s k = true) ∧
  (r.1 = true → r.2 = stateAfter exec hooks s) ∧
  (∀ k, k < hooks.length → (∀ j, j < k → outcomeAt exec hooks s j = true) →
    outcomeAt exec hooks s k = false →
    r = (false, stateAfter exec (hooks.take (k + 1)) s))

/-! ## Counting the calls into a script -/

/-- The engine `iface` with a counter next to its state.  The counter goes up
by one at each of the three primitives that run the function bound to the
event (`protectedCall`, `callFunction`, `callVoidFunction`) and is otherwise
carried along, so that it counts how often a bound function has been invoked. -/
def LuaScriptInterface.counted (iface : LuaScriptInterface σ) : LuaScriptInterface (σ × Nat) where
  reserveScriptEnv := fun s => ((iface.reserveScriptEnv s.1).1, ((iface.reserveScriptEnv s.1).2, s.2))
  resetScriptEnv := fun s => (iface.resetScriptEnv s.1, s.2)
  setScriptId := fun i p s => (iface.setScriptId i p s.1, s.2)
  pushFunction := fun i s => (iface.pushFunction i s.1, s.2)
  pushUserdata := fun p s => (iface.pushUserdata p s.1, s.2)
  setMetatable := fun i n s => (iface.setMetatable i n s.1, s.2)
  setCreatureMetatable := fun i p s => (iface.setCreatureMetatable i p s.1, s.2)
  lua_pushnumber := fun n s => (iface.lua_pushnumber n s.1, s.2)
  lua_pushnil := fun s => (iface.lua_pushnil s.1, s.2)
  pushThing := fun p s => (iface.pushThing p s.1, s.2)
  pushBoolean := fun b s => (iface.pushBoolean b s.1, s.2)
  pushString := fun t s => (iface.pushString t s.1, s.2)
  pushCombatDamage := fun d s => (iface.pushCombatDamage d s.1, s.2)
  protectedCall := fun a r s => ((iface.protectedCall a r s.1).1, ((iface.protectedCall a r s.1).2, s.2 + 1))
  callFunction := fun a s => ((iface.callFunction a s.1).1, ((iface.callFunction a s.1).2, s.2 + 1))
  callVoidFunction := fun a s => (iface.callVoidFunction a s.1, s.2 + 1)
  popString := fun s => ((iface.popString s.1).1, ((iface.popString s.1).2, s.2))
  reportError := fun m s => (iface.reportError m s.1, s.2)
  getNumberInt32 := fun i s => iface.getNumberInt32 i s.1
  getNumberCombatType := fun i s => iface.getNumberCombatType i s.1
  lua_pop := fun n s => (iface.lua_pop n s.1, s.2)
  reInitState := fun f s => (iface.reInitState f s.1, s.2)

/-! ## A reference engine -/

/-- Values on the stack of the reference engine. -/
inductive LuaValue
  | nil
  | boolean (b : Bool)
  | number (n : Int)
  | string (text : String)
  | userdata (ptr : Nat)
  | function (scriptId : Int)
  deriving DecidableEq, Repr

/-- The compiled-function table: what the function with a given id does when
called with the given arguments, a runtime error with its message or the
values it returns. -/
abbrev ScriptTable := Int → List LuaValue → Except String (List LuaValue)

/-- State of the reference engine: the reservation depth, the value stack (top
first), and three records kept for observation: how many releases happened,
which script ids ran (oldest first), which errors were reported. -/
structure LuaEnv where
  scriptEnvIndex : Int
  stack : List LuaValue
  released : Nat
  invoked : List Int
  reported : List String
  deriving DecidableEq, Repr

/-- Push one value. -/
def LuaEnv.push (env : LuaEnv) (v : LuaValue) : LuaEnv := { env with stack := v :: env.stack }

/-- The value at a negative stack index (`-1` is the top), `nil` outside. -/
def LuaEnv.valueAt (env : LuaEnv) (idx : Int) : LuaValue :=
  match env.stack.get? (-idx - 1).toNat with
  | some v => v
  | none => LuaValue.nil

/-- Modelled from the spec: reserving a call slot, "a counter with a fixed
ceiling; exceeding it fails fast".  Below the ceiling the depth goes up by one;
at the ceiling the reservation fails and takes no slot. -/
def LuaEnv.reserveScriptEnv (ceiling : Int) (env : LuaEnv) : Bool × LuaEnv :=
  if env.scriptEnvIndex < ceiling then
    (true, { env with scriptEnvIndex := env.scriptEnvIndex + 1 })
  else
    (false, env)

/-- Modelled from the spec: releasing the execution context gives one slot
back. -/
def LuaEnv.resetScriptEnv (env : LuaEnv) : LuaEnv :=
  { env with scriptEnvIndex := env.scriptEnvIndex - 1, released := env.released + 1 }

/-- Exactly `n` results: missing ones are `nil`, surplus ones are dropped. -/
def adjustResults (results : List LuaValue) (n : Nat) : List LuaValue :=
  (results ++ List.replicate n LuaValue.nil).take n

/-- Modelled from the spec: the "protected-call primitive that returns a
runtime-error indicator instead of propagating".  The function and its
arguments leave the stack; on success the requested number of results is
pushed and the indicator is `0`, on a runtime error the message is pushed and
the indicator is non-zero. -/
def LuaEnv.protectedCall (scripts : ScriptTable) (nargs nresults : Nat) (env : LuaEnv) :
    Int × LuaEnv :=
  let args := (env.stack.take nargs).reverse
  match env.stack.drop nargs with
  | LuaValue.function scriptId :: rest =>
    match scripts scriptId args with
    | Except.ok results =>
      (0, { env with stack := (adjustResults results nresults).reverse ++ rest
                     invoked := env.invoked ++ [scriptId] })
    | Except.error msg =>
      (2, { env with stack := LuaValue.string msg :: rest
                     invoked := env.invoked ++ [scriptId] })
  | rest => (2, { env with stack := LuaValue.string "attempt to call a non-function" :: rest.tail })

/-- Pop the string on top of the stack. -/
def LuaEnv.popString (env : LuaEnv) : String × LuaEnv :=
  match env.stack with
  | LuaValue.string text :: rest => (text, { env with stack := rest })
  | _ => ("", { env with stack := env.stack.tail })

/-- Report an error. -/
def LuaEnv.reportError (msg : String) (env : LuaEnv) : LuaEnv :=
  { env with reported := env.reported ++ [msg] }

/-- Modelled from the spec: the "single-result call" of the boolean hooks.  A
protected call for one result; a runtime error is reported and counts as
`false`, otherwise the result is read as a boolean; the execution context is
released before returning, on either path.  The release inside the helper is
the choice of this reference engine: the spec asks for a release before the
operation returns and does not name the function that makes it. -/
def LuaEnv.callFunction (scripts : ScriptTable) (params : Nat) (env : LuaEnv) : Bool × LuaEnv :=
  let c := LuaEnv.protectedCall scripts params 1 env
  if c.1 != 0 then
    let msg := c.2.popString
    (false, (LuaEnv.reportError msg.1 msg.2).resetScriptEnv)
  else
    let result := match c.2.valueAt (-1) with
      | LuaValue.boolean b => b
      | _ => false
    (result, ({ c.2 with stack := c.2.stack.tail } : LuaEnv).resetScriptEnv)

/-- Modelled from the spec: the call of the hooks without a result.  A
protected call for no result; a runtime error is reported; the execution
context is released before returning, on either path, by the choice of this
reference engine. -/
def LuaEnv.callVoidFunction (scripts : ScriptTable) (params : Nat) (env : LuaEnv) : LuaEnv :=
  let c := LuaEnv.protectedCall scripts params 0 env
  if c.1 != 0 then
    let msg := c.2.popString
    (LuaEnv.reportError msg.1 msg.2).resetScriptEnv
  else
    c.2.resetScriptEnv

/-- Modelled from the spec: the reference engine, a scripting bridge with "call
reservation, a compiled-function table addressed by opaque id, a typed
argument-push/result-pop interface, and a protected-call primitive".  The
engine itself (`luascript.h`, `luascript.cpp`) is not among the sources. -/
def specBridge (scripts : ScriptTable) (ceiling : Int) : LuaScriptInterface LuaEnv where
  reserveScriptEnv := LuaEnv.reserveScriptEnv ceiling
  resetScriptEnv := LuaEnv.resetScriptEnv
  setScriptId := fun _ _ env => env
  pushFunction := fun scriptId env => env.push (LuaValue.function scriptId)
  pushUserdata := fun ptr env => env.push (LuaValue.userdata ptr)
  setMetatable := fun _ _ env => env
  setCreatureMetatable := fun _ _ env => env
  lua_pushnumber := fun n env => env.push (LuaValue.number n)
  lua_pushnil := fun env => env.push LuaValue.nil
  pushThing := fun ptr env =>
    if ptr != 0 then env.push (LuaValue.userdata ptr) else env.push LuaValue.nil
  pushBoolean := fun b env => env.push (LuaValue.boolean b)
  pushString := fun text env => env.push (LuaValue.string text)
  pushCombatDamage := fun d env =>
    ((((env.push (LuaValue.number d.primary.value)).push (LuaValue.number d.primary.type)).push
      (LuaValue.number d.secondary.value)).push (LuaValue.number d.secondary.type)).push
      (LuaValue.number d.origin)
  protectedCall := LuaEnv.protectedCall scripts
  callFunction := LuaEnv.callFunction scripts
  callVoidFunction := LuaEnv.callVoidFunction scripts
  popString := LuaEnv.popString
  reportError := LuaEnv.reportError
  getNumberInt32 := fun idx env =>
    match env.valueAt idx with
    | LuaValue.number n => wrapInt32 n
    | _ => 0
  getNumberCombatType := fun idx env =>
    match env.valueAt idx with
    | LuaValue.number n => n.toNat
    | _ => 0
  lua_pop := fun n env => { env with stack := env.stack.drop n }
  reInitState := fun _ env => { env with stack := [] }

/-- An engine state with nothing reserved and an empty stack. -/
def LuaEnv.fresh : LuaEnv :=
  { scriptEnvIndex := 0, stack := [], released := 0, invoked := [], reported := [] }

/-- An engine state in which every one of the sixteen slots is taken. -/
def LuaEnv.exhausted : LuaEnv :=
  { scriptEnvIndex := 16, stack := [], released := 0, invoked := [], reported := [] }

/-! ## Fixtures -/

/-- A script that returns the damage values `10, physical, 10, physical`. -/
def physicalTen : ScriptTable := fun _ _ =>
  Except.ok [LuaValue.number 10, LuaValue.number COMBAT_PHYSICALDAMAGE,
             LuaValue.number 10, LuaValue.number COMBAT_PHYSICALDAMAGE]

/-- A script that returns the damage values `10, healing, 10, healing`. -/
def healingTen : ScriptTable := fun _ _ =>
  Except.ok [LuaValue.number 10, LuaValue.number COMBAT_HEALING,
             LuaValue.number 10, LuaValue.number COMBAT_HEALING]

/-- A script that returns the damage values `-5, physical, -7, physical`. -/
def minusFive : ScriptTable := fun _ _ =>
  Except.ok [LuaValue.number (-5), LuaValue.number COMBAT_PHYSICALDAMAGE,
             LuaValue.number (-7), LuaValue.number COMBAT_PHYSICALDAMAGE]

/-- A script that returns the given primary value with the given type. -/
def returning (v : Int) (t : CombatType_t) : ScriptTable := fun _ _ =>
  Except.ok [LuaValue.number v, LuaValue.number t, LuaValue.number 0, LuaValue.number t]

/-- A script that always fails with a runtime error. -/
def failing : ScriptTable := fun _ _ => Except.error "runtime error"

/-- Three scripts for boolean hooks: the one with id `2` returns `false`, the
others return `true`. -/
def secondVetoes : ScriptTable := fun scriptId _ =>
  Except.ok [LuaValue.boolean (scriptId != 2)]

/-- An event with the given name, category, script id and origin. -/
def mkEvent (name : String) (t : CreatureEventType_t) (scriptId : Int) (fromLua : Bool) :
    CreatureEvent :=
  { scriptId := scriptId, scriptInterface := 1, scripted := true, fromLua := fromLua,
    eventName := name, type := t, loaded := true }

/-- A damage record: 40 physical and 2 physical. -/
def sampleDamage : CombatDamage :=
  { primary := { type := COMBAT_PHYSICALDAMAGE, value := -40 },
    secondary := { type := COMBAT_PHYSICALDAMAGE, value := -2 }, origin := 3 }

/-- Three login hooks with the script ids `1`, `2`, `3`. -/
def threeLoginHooks : CreatureEvents :=
  { creatureEvents := [], logoutEvents := [], advanceEvents := [],
    loginEvents := [mkEvent "" CREATURE_EVENT_LOGIN 1 false,
                    mkEvent "" CREATURE_EVENT_LOGIN 2 false,
                    mkEvent "" CREATURE_EVENT_LOGIN 3 true] }

/-- A registry with one configuration entry and one script entry in each of
the four containers. -/
def mixedOrigins : CreatureEvents :=
  { creatureEvents := [("guard", mkEvent "guard" CREATURE_EVENT_KILL 1 false),
                       ("heal", mkEvent "heal" CREATURE_EVENT_HEALTHCHANGE 2 true)],
    loginEvents := [mkEvent "" CREATURE_EVENT_LOGIN 3 true, mkEvent "" CREATURE_EVENT_LOGIN 4 false],
    logoutEvents := [mkEvent "" CREATURE_EVENT_LOGOUT 5 false,
                     mkEvent "" CREATURE_EVENT_LOGOUT 6 true],
    advanceEvents := [mkEvent "" CREATURE_EVENT_ADVANCE 7 true,
                      mkEvent "" CREATURE_EVENT_ADVANCE 8 false] }

/-- The empty registry. -/
def CreatureEvents.empty : CreatureEvents :=
  { creatureEvents := [], loginEvents := [], logoutEvents := [], advanceEvents := [] }

/-! ## The calls an operation makes to reserve, run and release -/

theorem eraseNamed_eq_filter (f : Bool) (l : List (String × CreatureEvent)) :
    eraseNamed f l = l.filter (fun it => it.2.fromLua != f) := by
  induction l with
  | nil => rfl
  | cons it rest ih =>
    rw [eraseNamed, ih, List.filter_cons]
    cases f <;> cases hi : it.2.fromLua <;> simp

theorem eraseHooks_eq_filter (f : Bool) (l : List CreatureEvent) :
    eraseHooks f l = l.filter (fun it => it.fromLua != f) := by
  induction l with
  | nil => rfl
  | cons it rest ih =>
    rw [eraseHooks, ih, List.filter_cons]
    cases f <;> cases hi : it.fromLua <;> simp

theorem mem_eraseNamed (f : Bool) (l : List (String × CreatureEvent)) (it : String × CreatureEvent) :
    it ∈ eraseNamed f l ↔ it ∈ l ∧ it.2.fromLua ≠ f := by
  rw [eraseNamed_eq_filter, List.mem_filter]
  simp

theorem mem_eraseHooks (f : Bool) (l : List CreatureEvent) (it : CreatureEvent) :
    it ∈ eraseHooks f l ↔ it ∈ l ∧ it.fromLua ≠ f := by
  rw [eraseHooks_eq_filter, List.mem_filter]
  simp

/-- C1: `clear(f)` leaves each of the four containers equal to its previous
content restricted to the entries whose `fromLua` differs from `f`: an entry is
present afterwards exactly when it was present before with `fromLua ≠ f`, and
the kept entries keep their relative order (each container afterwards is a
sublist of the container before). -/
theorem clear_keeps_exactly_other_origin (iface : LuaScriptInterface σ) (self : CreatureEvents)
    (f : Bool) (s : σ) :
    ((self.clear iface f s).1.creatureEvents
        = self.creatureEvents.filter (fun it => it.2.fromLua != f) ∧
      (self.clear iface f s).1.loginEvents
        = self.loginEvents.filter (fun it => it.fromLua != f) ∧
      (self.clear iface f s).1.logoutEvents
        = self.logoutEvents.filter (fun it => it.fromLua != f) ∧
      (self.clear iface f s).1.advanceEvents
        = self.advanceEvents.filter (fun it => it.fromLua != f)) ∧
    ((∀ it, it ∈ (self.clear iface f s).1.creatureEvents
        ↔ it ∈ self.creatureEvents ∧ it.2.fromLua ≠ f) ∧
      (∀ it, it ∈ (self.clear iface f s).1.loginEvents
        ↔ it ∈ self.loginEvents ∧ it.fromLua ≠ f) ∧
      (∀ it, it ∈ (self.clear iface f s).1.logoutEvents
        ↔ it ∈ self.logoutEvents ∧ it.fromLua ≠ f) ∧
      (∀ it, it ∈ (self.clear iface f s).1.advanceEvents
        ↔ it ∈ self.advanceEvents ∧ it.fromLua ≠ f)) ∧
    ((self.clear iface f s).1.creatureEvents.Sublist self.creatureEvents ∧
      (self.clear iface f s).1.loginEvents.Sublist self.loginEvents ∧
      (self.clear iface f s).1.logoutEvents.Sublist self.logoutEvents ∧
      (self.clear iface f s).1.advanceEvents.Sublist self.advanceEvents) := by
  refine ⟨⟨?_, ?_, ?_, ?_⟩, ⟨?_, ?_, ?_, ?_⟩, ⟨?_, ?_, ?_, ?_⟩⟩
  · exact eraseNamed_eq_filter f _
  · exact eraseHooks_eq_filter f _
  · exact eraseHooks_eq_filter f _
  · exact eraseHooks_eq_filter f _
  · exact mem_eraseNamed f _
  · exact mem_eraseHooks f _
  · exact mem_eraseHooks f _
  · exact mem_eraseHooks f _
  · show (eraseNamed f self.creatureEvents).Sublist _
    rw [eraseNamed_eq_filter]; exact List.filter_sublist _
  · show (eraseHooks f self.loginEvents).Sublist _
    rw [eraseHooks_eq_filter]; exact List.filter_sublist _
  · show (eraseHooks f self.logoutEvents).Sublist _
    rw [eraseHooks_eq_filter]; exact List.filter_sublist _
  · show (eraseHooks f self.advanceEvents).Sublist _
    rw [eraseHooks_eq_filter]; exact List.filter_sublist _

/-- C1 at a concrete input: clearing the script-origin entries of a registry
that holds one entry of each origin in each container. -/
theorem clear_keeps_exactly_other_origin_witness :
    (mixedOrigins.clear (specBridge failing 16) true LuaEnv.fresh).1.creatureEvents
      = [("guard", mkEvent "guard" CREATURE_EVENT_KILL 1 false)] ∧
    (mixedOrigins.clear (specBridge failing 16) true LuaEnv.fresh).1.loginEvents
      = [mkEvent "" CREATURE_EVENT_LOGIN 4 false] ∧
    (mixedOrigins.clear (specBridge failing 16) true LuaEnv.fresh).1.logoutEvents
      = [mkEvent "" CREATURE_EVENT_LOGOUT 5 false] ∧
    (mixedOrigins.clear (specBridge failing 16) true LuaEnv.fresh).1.advanceEvents
      = [mkEvent "" CREATURE_EVENT_ADVANCE 8 false] :=
  have h := (clear_keeps_exactly_other_origin (specBridge failing 16) mixedOrigins true
    LuaEnv.fresh).1
  ⟨h.1.trans (by decide), h.2.1.trans (by decide), h.2.2.1.trans (by decide),
   h.2.2.2.trans (by decide)⟩

/-! ## Duplicate names -/

theorem emplace_present (m : List (String × CreatureEvent)) (name : String)
    (ev old : CreatureEvent) (h : findNamed name m = some old) :
    emplace m name ev = (m, false) := by
  simp [emplace, h]

theorem findNamed_append_absent (m : List (String × CreatureEvent)) (name : String)
    (ev : CreatureEvent) (h : findNamed name m = none) :
    findNamed name (m ++ [(name, ev)]) = some ev := by
  induction m with
  | nil => simp [findNamed]
  | cons it rest ih =>
    by_cases hk : it.1 = name
    · simp [findNamed, hk] at h
    · simp only [findNamed, hk, if_false] at h
      simp [findNamed, hk, ih h]

theorem findNamed_emplace (m : List (String × CreatureEvent)) (name : String) (ev : CreatureEvent) :
    ∃ kept, findNamed name (emplace m name ev).1 = some kept ∧
      ((emplace m name ev).2 = true → kept = ev) := by
  cases h : findNamed name m with
  | some old => exact ⟨old, by simp [emplace, h], by simp [emplace, h]⟩
  | none => exact ⟨ev, by simp [emplace, h, findNamed_append_absent m name ev h], fun _ => rfl⟩

theorem length_emplace_le (m : List (String × CreatureEvent)) (name : String) (ev : CreatureEvent) :
    (emplace m name ev).1.length ≤ m.length + 1 := by
  cases h : findNamed name m <;> simp [emplace, h]

theorem registerLuaEvent_eq_registerEvent (self : CreatureEvents) (ev : CreatureEvent)
    (node : xml_node) : self.registerLuaEvent ev = self.registerEvent ev node := rfl

theorem registerVia_addressable (viaLua : Bool) (self : CreatureEvents) (ev : CreatureEvent)
    (node : xml_node) (h : addressable ev.type = true) :
    self.registerVia viaLua ev node =
      ((emplace self.creatureEvents ev.eventName ev).2,
       { self with creatureEvents := (emplace self.creatureEvents ev.eventName ev).1 }) := by
  have h1 : ev.type ≠ CREATURE_EVENT_NONE := by intro hc; simp [addressable, hc] at h
  have h2 : ev.type ≠ CREATURE_EVENT_LOGIN := by intro hc; simp [addressable, hc] at h
  have h3 : ev.type ≠ CREATURE_EVENT_LOGOUT := by intro hc; simp [addressable, hc] at h
  have h4 : ev.type ≠ CREATURE_EVENT_ADVANCE := by intro hc; simp [addressable, hc] at h
  cases viaLua <;>
    simp [CreatureEvents.registerVia, CreatureEvents.registerEvent,
      CreatureEvents.registerLuaEvent, CreatureEvent.getEventType, CreatureEvent.getName,
      h1, h2, h3, h4]

/-- C2: for two definitions `a`, `b` of addressable categories with the same
name, registered one after the other through either entry point, the second
registration returns `false` and leaves the registry as the first one left it;
the entry found under the name is the one found after the first registration
(`a` itself when the first registration succeeded), and the named map has at
most one entry more than before both registrations. -/
theorem duplicate_name_rejected (self : CreatureEvents) (a b : CreatureEvent)
    (na nb : xml_node) (x y : Bool) (ha : addressable a.type = true)
    (hb : addressable b.type = true) (hn : a.eventName = b.eventName) :
    ((self.registerVia x a na).2.registerVia y b nb).1 = false ∧
    ((self.registerVia x a na).2.registerVia y b nb).2 = (self.registerVia x a na).2 ∧
    findNamed a.eventName ((self.registerVia x a na).2.registerVia y b nb).2.creatureEvents
      = findNamed a.eventName (self.registerVia x a na).2.creatureEvents ∧
    (∃ kept,
      findNamed a.eventName ((self.registerVia x a na).2.registerVia y b nb).2.creatureEvents
        = some kept ∧
      ((self.registerVia x a na).1 = true → kept = a)) ∧
    ((self.registerVia x a na).2.registerVia y b nb).2.creatureEvents.length
      ≤ self.creatureEvents.length + 1 := by
  obtain ⟨kept, hkept, hfirst⟩ := findNamed_emplace self.creatureEvents a.eventName a
  have hsecond : ((self.registerVia x a na).2.registerVia y b nb)
      = (false, (self.registerVia x a na).2) := by
    rw [registerVia_addressable y _ b nb hb, registerVia_addressable x self a na ha]
    have hp := emplace_present (emplace self.creatureEvents a.eventName a).1 b.eventName b kept
      (hn ▸ hkept)
    simp [hp]
  rw [hsecond]
  refine ⟨rfl, rfl, rfl, ⟨kept, ?_, ?_⟩, ?_⟩
  · rw [registerVia_addressable x self a na ha]; exact hkept
  · rw [registerVia_addressable x self a na ha]; exact hfirst
  · rw [registerVia_addressable x self a na ha]
    exact length_emplace_le self.creatureEvents a.eventName a

/-- C2 at a concrete input: `kill` registered from the configuration, then a
script-registered `think` under the same name. -/
theorem duplicate_name_rejected_witness :
    addressable (mkEvent "guard" CREATURE_EVENT_KILL 1 false).type = true ∧
    addressable (mkEvent "guard" CREATURE_EVENT_THINK 2 true).type = true ∧
    ((CreatureEvents.empty.registerVia false (mkEvent "guard" CREATURE_EVENT_KILL 1 false)
        ⟨[]⟩).2.registerVia true (mkEvent "guard" CREATURE_EVENT_THINK 2 true) ⟨[]⟩).1 = false ∧
    findNamed "guard"
      ((CreatureEvents.empty.registerVia false (mkEvent "guard" CREATURE_EVENT_KILL 1 false)
        ⟨[]⟩).2.registerVia true (mkEvent "guard" CREATURE_EVENT_THINK 2 true)
        ⟨[]⟩).2.creatureEvents
      = findNamed "guard"
        (CreatureEvents.empty.registerVia false (mkEvent "guard" CREATURE_EVENT_KILL 1 false)
          ⟨[]⟩).2.creatureEvents :=
  have h := duplicate_name_rejected CreatureEvents.empty
    (mkEvent "guard" CREATURE_EVENT_KILL 1 false) (mkEvent "guard" CREATURE_EVENT_THINK 2 true)
    ⟨[]⟩ ⟨[]⟩ false true (by decide) (by decide) rfl
  ⟨by decide, by decide, h.1, h.2.2.1⟩

/-! ## Veto iteration -/

theorem outcomeAt_cons_zero (exec : CreatureEvent → σ → Bool × σ) (it : CreatureEvent)
    (rest : List CreatureEvent) (s : σ) :
    outcomeAt exec (it :: rest) s 0 = (exec it s).1 := by
  simp [outcomeAt, stateAfter]

theorem outcomeAt_cons_succ (exec : CreatureEvent → σ → Bool × σ) (it : CreatureEvent)
    (rest : List CreatureEvent) (s : σ) (k : Nat) :
    outcomeAt exec (it :: rest) s (k + 1) = outcomeAt exec rest (exec it s).2 k := by
  simp [outcomeAt, stateAfter]

theorem stateAfter_cons (exec : CreatureEvent → σ → Bool × σ) (it : CreatureEvent)
    (rest : List CreatureEvent) (s : σ) :
    stateAfter exec (it :: rest) s = stateAfter exec rest (exec it s).2 := by
  simp [stateAfter]

theorem fireHooks_veto (exec : CreatureEvent → σ → Bool × σ) (hooks : List CreatureEvent) :
    ∀ s : σ, VetoIteration exec hooks s (fireHooks exec hooks s) := by
  induction hooks with
  | nil =>
    intro s
    refine ⟨?_, ?_, ?_⟩
    · simp [fireHooks]
    · intro _; simp [fireHooks, stateAfter]
    · intro k hk; simp at hk
  | cons it rest ih =>
    intro s
    obtain ⟨ih1, ih2, ih3⟩ := ih (exec it s).2
    cases h0 : (exec it s).1 with
    | false =>
      have hr : fireHooks exec (it :: rest) s = (false, (exec it s).2) := by
        simp [fireHooks, h0]
      rw [hr]
      refine ⟨?_, ?_, ?_⟩
      · constructor
        · intro h; simp at h
        · intro h
          have := h 0 (by simp)
          rw [outcomeAt_cons_zero, h0] at this
          simp at this
      · intro h; simp at h
      · intro k _ hbefore _
        cases k with
        | zero => simp [stateAfter]
        | succ k =>
          have := hbefore 0 (Nat.succ_pos k)
          rw [outcomeAt_cons_zero, h0] at this
          simp at this
    | true =>
      have hr : fireHooks exec (it :: rest) s = fireHooks exec rest (exec it s).2 := by
        simp [fireHooks, h0]
      rw [hr]
      refine ⟨?_, ?_, ?_⟩
      · rw [ih1]
        constructor
        · intro h k hk
          cases k with
          | zero => rw [outcomeAt_cons_zero, h0]
          | succ k =>
            rw [outcomeAt_cons_succ]
            exact h k (by simpa using hk)
        · intro h k hk
          have := h (k + 1) (by simpa using hk)
          rwa [outcomeAt_cons_succ] at this
      · intro h
        rw [stateAfter_cons]
        exact ih2 h
      · intro k hk hbefore hfalse
        cases k with
        | zero =>
          rw [outcomeAt_cons_zero, h0] at hfalse
          simp at hfalse
        | succ k =>
          rw [outcomeAt_cons_succ] at hfalse
          have hb : ∀ j, j < k → outcomeAt exec rest (exec it s).2 j = true := by
            intro j hj
            have := hbefore (j + 1) (by omega)
            rwa [outcomeAt_cons_succ] at this
          rw [ih3 k (by simpa using hk) hb hfalse]
          simp [stateAfter]

/-- C3: `playerLogin` over `loginEvents`, `playerLogout` over `logoutEvents` and
`playerAdvance` over `advanceEvents` are veto iterations, for every engine and
every state: the result is `true` exactly when every hook returns `true` (so it
is `true` on an empty sequence), and when the hook at position `k` is the first
to return `false` the result is `false` and the engine state is the one
reached by executing the hooks at positions `0..k` in order, no later one. -/
theorem broadcast_is_veto_iteration (iface : LuaScriptInterface σ) (self : CreatureEvents)
    (player skill oldLevel newLevel : Nat) (s : σ) :
    VetoIteration (fun it => it.executeOnLogin iface player) self.loginEvents s
      (self.playerLogin iface player s) ∧
    VetoIteration (fun it => it.executeOnLogout iface player) self.logoutEvents s
      (self.playerLogout iface player s) ∧
    VetoIteration (fun it => it.executeAdvance iface player skill oldLevel newLevel)
      self.advanceEvents s (self.playerAdvance iface player skill oldLevel newLevel s) :=
  ⟨fireHooks_veto _ _ s, fireHooks_veto _ _ s, fireHooks_veto _ _ s⟩

/-- C3 at a concrete input: of three login hooks the second returns `false`;
`playerLogin` returns `false`, the scripts `1` and `2` have run, in this order,
and the script `3` has not. -/
theorem broadcast_is_veto_iteration_witness :
    (threeLoginHooks.playerLogin (specBridge secondVetoes 16) 5 LuaEnv.fresh).1 = false ∧
    (threeLoginHooks.playerLogin (specBridge secondVetoes 16) 5 LuaEnv.fresh).2.invoked = [1, 2] ∧
    (CreatureEvents.empty.playerLogin (specBridge secondVetoes 16) 5 LuaEnv.fresh).1 = true :=
  have h := (broadcast_is_veto_iteration (specBridge secondVetoes 16) threeLoginHooks
    5 0 0 0 LuaEnv.fresh).1.2.2 1 (by decide) (by decide) (by decide)
  have e := (broadcast_is_veto_iteration (specBridge secondVetoes 16) CreatureEvents.empty
    5 0 0 0 LuaEnv.fresh).1.1.mpr (by decide)
  ⟨congrArg Prod.fst h, congrArg (fun r => r.2.invoked) h, e⟩

/-! ## HealthChange: sign policy -/

theorem std_abs_of_range (v : Int) (hmin : INT32_MIN < v) (hmax : v ≤ INT32_MAX) :
    std_abs v = |v| := by
  unfold INT32_MIN at hmin
  unfold INT32_MAX at hmax
  unfold std_abs wrapInt32
  by_cases h : v < 0
  · rw [if_pos h, abs_of_neg h]; omega
  · rw [if_neg h, abs_of_nonneg (not_lt.mp h)]; omega

theorem negInt32_abs_of_range (v : Int) (hmin : INT32_MIN < v) (hmax : v ≤ INT32_MAX) :
    negInt32 |v| = -|v| := by
  unfold INT32_MIN at hmin
  unfold INT32_MAX at hmax
  unfold negInt32 wrapInt32
  by_cases h : v < 0
  · rw [abs_of_neg h]; omega
  · rw [abs_of_nonneg (not_lt.mp h)]; omega

/-- C4, amended: when the `HealthChange` script has been called successfully and
has returned the primary value `v`, other than `INT32_MIN`, with primary type
`t`, the final primary type is `t` and the final primary value is `-|v|` when
`t` is not the healing type (at most zero, negative for `v ≠ 0`) and `|v|` when
`t` is the healing type (at least zero, positive for `v ≠ 0`). -/
theorem healthChange_absolute_magnitude (iface : LuaScriptInterface σ) (self : CreatureEvent)
    (creature attacker : Nat) (damage : CombatDamage) (s : σ) (v : Int) (t : CombatType_t)
    (hres : (iface.reserveScriptEnv s).1 = true)
    (hok : (afterProtectedCall iface self creature attacker damage s).1 = 0)
    (hv : iface.getNumberInt32 (-4) (afterProtectedCall iface self creature attacker damage s).2 = v)
    (ht : iface.getNumberCombatType (-3)
      (afterProtectedCall iface self creature attacker damage s).2 = t)
    (hmin : INT32_MIN < v) (hmax : v ≤ INT32_MAX) :
    (self.executeHealthChange iface creature attacker damage s).1.primary.type = t ∧
    (t ≠ COMBAT_HEALING →
      (self.executeHealthChange iface creature attacker damage s).1.primary.value = -|v| ∧
      (self.executeHealthChange iface creature attacker damage s).1.primary.value ≤ 0 ∧
      (v ≠ 0 → (self.executeHealthChange iface creature attacker damage s).1.primary.value < 0)) ∧
    (t = COMBAT_HEALING →
      (self.executeHealthChange iface creature attacker damage s).1.primary.value = |v| ∧
      0 ≤ (self.executeHealthChange iface creature attacker damage s).1.primary.value ∧
      (v ≠ 0 → 0 < (self.executeHealthChange iface creature attacker damage s).1.primary.value)) := by
  have habs := std_abs_of_range v hmin hmax
  have hneg := negInt32_abs_of_range v hmin hmax
  unfold afterProtectedCall at hok hv ht
  unfold CreatureEvent.executeHealthChange
  simp only [hres, hok, hv, ht]
  by_cases hh : t = COMBAT_HEALING
  · subst hh
    simp [habs]
  · simp [hh, habs, hneg]

/-- C4 at concrete inputs: a script returning `10` with type physical gives
`-10`, a script returning `10` with type healing gives `10`. -/
theorem healthChange_absolute_magnitude_witness :
    ((specBridge physicalTen 16).reserveScriptEnv LuaEnv.fresh).1 = true ∧
    (afterProtectedCall (specBridge physicalTen 16)
      (mkEvent "hc" CREATURE_EVENT_HEALTHCHANGE 1 false) 7 0 sampleDamage LuaEnv.fresh).1 = 0 ∧
    ((mkEvent "hc" CREATURE_EVENT_HEALTHCHANGE 1 false).executeHealthChange
      (specBridge physicalTen 16) 7 0 sampleDamage LuaEnv.fresh).1.primary.value = -10 ∧
    ((mkEvent "hc" CREATURE_EVENT_HEALTHCHANGE 1 false).executeHealthChange
      (specBridge healingTen 16) 7 0 sampleDamage LuaEnv.fresh).1.primary.value = 10 :=
  ⟨by decide, by decide,
   (((healthChange_absolute_magnitude (specBridge physicalTen 16)
      (mkEvent "hc" CREATURE_EVENT_HEALTHCHANGE 1 false) 7 0 sampleDamage LuaEnv.fresh
      10 COMBAT_PHYSICALDAMAGE (by decide) (by decide) (by decide) (by decide)
      (by decide) (by decide)).2.1 (by decide)).1).trans (by norm_num),
   (((healthChange_absolute_magnitude (specBridge healingTen 16)
      (mkEvent "hc" CREATURE_EVENT_HEALTHCHANGE 1 false) 7 0 sampleDamage LuaEnv.fresh
      10 COMBAT_HEALING (by decide) (by decide) (by decide) (by decide)
      (by decide) (by decide)).2.2 rfl).1).trans (by norm_num)⟩

/-- C4 as stated fails at `v = 0`: a script returning `0` leaves the final
primary value `0`, which is not negative under a non-healing type and not
positive under the healing type. -/
theorem healthChange_zero_is_unsigned :
    ((mkEvent "hc" CREATURE_EVENT_HEALTHCHANGE 1 false).executeHealthChange
      (specBridge (returning 0 COMBAT_PHYSICALDAMAGE) 16) 7 0 sampleDamage
      LuaEnv.fresh).1.primary.value = 0 ∧
    ¬ ((mkEvent "hc" CREATURE_EVENT_HEALTHCHANGE 1 false).executeHealthChange
      (specBridge (returning 0 COMBAT_PHYSICALDAMAGE) 16) 7 0 sampleDamage
      LuaEnv.fresh).1.primary.value < 0 ∧
    ((mkEvent "hc" CREATURE_EVENT_HEALTHCHANGE 1 false).executeHealthChange
      (specBridge (returning 0 COMBAT_HEALING) 16) 7 0 sampleDamage
      LuaEnv.fresh).1.primary.value = 0 ∧
    ¬ 0 < ((mkEvent "hc" CREATURE_EVENT_HEALTHCHANGE 1 false).executeHealthChange
      (specBridge (returning 0 COMBAT_HEALING) 16) 7 0 sampleDamage
      LuaEnv.fresh).1.primary.value := by
  decide

/-! ## ManaChange: values pass through -/

/-- C5: when the `ManaChange` script has been called successfully and has
returned the four values `pv, pt, sv, st`, the damage record afterwards holds
exactly these four values, with no absolute value and no change of sign. -/
theorem manaChange_passes_through (iface : LuaScriptInterface σ) (self : CreatureEvent)
    (creature attacker : Nat) (damage : CombatDamage) (s : σ) (pv sv : Int)
    (pt st : CombatType_t)
    (hres : (iface.reserveScriptEnv s).1 = true)
    (hok : (afterProtectedCall iface self creature attacker damage s).1 = 0)
    (hpv : iface.getNumberInt32 (-4)
      (afterProtectedCall iface self creature attacker damage s).2 = pv)
    (hpt : iface.getNumberCombatType (-3)
      (afterProtectedCall iface self creature attacker damage s).2 = pt)
    (hsv : iface.getNumberInt32 (-2)
      (afterProtectedCall iface self creature attacker damage s).2 = sv)
    (hst : iface.getNumberCombatType (-1)
      (afterProtectedCall iface self creature attacker damage s).2 = st) :
    (self.executeManaChange iface creature attacker damage s).1 =
      { primary := { type := pt, value := pv }, secondary := { type := st, value := sv },
        origin := damage.origin } := by
  unfold afterProtectedCall at hok hpv hpt hsv hst
  unfold CreatureEvent.executeManaChange
  simp only [hres, hok, hpv, hpt, hsv, hst]
  simp

/-- C5 at a concrete input: a script returning the primary value `-5` (and the
secondary value `-7`) leaves `-5` (and `-7`) in the damage record. -/
theorem manaChange_passes_through_witness :
    ((specBridge minusFive 16).reserveScriptEnv LuaEnv.fresh).1 = true ∧
    (afterProtectedCall (specBridge minusFive 16)
      (mkEvent "mc" CREATURE_EVENT_MANACHANGE 1 false) 7 9 sampleDamage LuaEnv.fresh).1 = 0 ∧
    ((mkEvent "mc" CREATURE_EVENT_MANACHANGE 1 false).executeManaChange
      (specBridge minusFive 16) 7 9 sampleDamage LuaEnv.fresh).1 =
      { primary := { type := COMBAT_PHYSICALDAMAGE, value := -5 },
        secondary := { type := COMBAT_PHYSICALDAMAGE, value := -7 }, origin := 3 } :=
  ⟨by decide, by decide,
   manaChange_passes_through (specBridge minusFive 16)
     (mkEvent "mc" CREATURE_EVENT_MANACHANGE 1 false) 7 9 sampleDamage LuaEnv.fresh
     (-5) (-7) COMBAT_PHYSICALDAMAGE COMBAT_PHYSICALDAMAGE
     (by decide) (by decide) (by decide) (by decide) (by decide) (by decide)⟩

/-! ## Reservation failure -/

/-- C8: when `reserveScriptEnv` fails, each of the twelve dispatcher operations
returns at once: the boolean operations return `false`, the void operations
change nothing, the mutation hooks return the damage record they were given;
the engine is left in the state in which the failed reservation left it, and
the count of invocations of a bound function is the same as before. -/
theorem reservation_failure_skips_script (iface : LuaScriptInterface σ) (self : CreatureEvent)
    (s : σ) (n : Nat) (player creature target killer mostDamageKiller corpse item attacker : Nat)
    (interval skill oldLevel newLevel modalWindowId buttonId choiceId opcode : Nat)
    (lastHit lastHitUnjustified mostDamageUnjustified : Bool) (text buffer : String)
    (damage : CombatDamage) (hfail : (iface.reserveScriptEnv s).1 = false) :
    self.executeOnLogin iface.counted player (s, n)
      = (false, ((iface.reserveScriptEnv s).2, n)) ∧
    self.executeOnLogout iface.counted player (s, n)
      = (false, ((iface.reserveScriptEnv s).2, n)) ∧
    self.executeOnThink iface.counted creature interval (s, n)
      = (false, ((iface.reserveScriptEnv s).2, n)) ∧
    self.executeOnPrepareDeath iface.counted creature killer (s, n)
      = (false, ((iface.reserveScriptEnv s).2, n)) ∧
    self.executeOnDeath iface.counted creature corpse killer mostDamageKiller
        lastHitUnjustified mostDamageUnjustified (s, n)
      = (false, ((iface.reserveScriptEnv s).2, n)) ∧
    self.executeAdvance iface.counted player skill oldLevel newLevel (s, n)
      = (false, ((iface.reserveScriptEnv s).2, n)) ∧
    self.executeTextEdit iface.counted player item text (s, n)
      = (false, ((iface.reserveScriptEnv s).2, n)) ∧
    self.executeOnKill iface.counted creature target lastHit (s, n)
      = ((iface.reserveScriptEnv s).2, n) ∧
    self.executeModalWindow iface.counted player modalWindowId buttonId choiceId (s, n)
      = ((iface.reserveScriptEnv s).2, n) ∧
    self.executeExtendedOpcode iface.counted player opcode buffer (s, n)
      = ((iface.reserveScriptEnv s).2, n) ∧
    self.executeHealthChange iface.counted creature attacker damage (s, n)
      = (damage, ((iface.reserveScriptEnv s).2, n)) ∧
    self.executeManaChange iface.counted creature attacker damage (s, n)
      = (damage, ((iface.reserveScriptEnv s).2, n)) := by
  refine ⟨?_, ?_, ?_, ?_, ?_, ?_, ?_, ?_, ?_, ?_, ?_, ?_⟩
  · simp [CreatureEvent.executeOnLogin, LuaScriptInterface.counted, hfail]
  · simp [CreatureEvent.executeOnLogout, LuaScriptInterface.counted, hfail]
  · simp [CreatureEvent.executeOnThink, LuaScriptInterface.counted, hfail]
  · simp [CreatureEvent.executeOnPrepareDeath, LuaScriptInterface.counted, hfail]
  · simp [CreatureEvent.executeOnDeath, LuaScriptInterface.counted, hfail]
  · simp [CreatureEvent.executeAdvance, LuaScriptInterface.counted, hfail]
  · simp [CreatureEvent.executeTextEdit, LuaScriptInterface.counted, hfail]
  · simp [CreatureEvent.executeOnKill, LuaScriptInterface.counted, hfail]
  · simp [CreatureEvent.executeModalWindow, LuaScriptInterface.counted, hfail]
  · simp [CreatureEvent.executeExtendedOpcode, LuaScriptInterface.counted, hfail]
  · simp [CreatureEvent.executeHealthChange, LuaScriptInterface.counted, hfail]
  · simp [CreatureEvent.executeManaChange, LuaScriptInterface.counted, hfail]

/-- C8 at a concrete input: every slot of the reference engine is taken. -/
theorem reservation_failure_skips_script_witness :
    ((specBridge physicalTen 16).reserveScriptEnv LuaEnv.exhausted).1 = false ∧
    (mkEvent "" CREATURE_EVENT_LOGIN 1 false).executeOnLogin (specBridge physicalTen 16).counted
      5 (LuaEnv.exhausted, 0) = (false, (LuaEnv.exhausted, 0)) ∧
    (mkEvent "" CREATURE_EVENT_LOGIN 1 false).executeOnKill (specBridge physicalTen 16).counted
      5 6 true (LuaEnv.exhausted, 0) = (LuaEnv.exhausted, 0) ∧
    (mkEvent "" CREATURE_EVENT_LOGIN 1 false).executeHealthChange
      (specBridge physicalTen 16).counted 5 6 sampleDamage (LuaEnv.exhausted, 0)
      = (sampleDamage, (LuaEnv.exhausted, 0)) :=
  have h := reservation_failure_skips_script (specBridge physicalTen 16)
    (mkEvent "" CREATURE_EVENT_LOGIN 1 false) LuaEnv.exhausted 0 5 5 6 0 0 0 0 6
    0 0 0 0 0 0 0 0 true false false "" "" sampleDamage (by decide)
  ⟨by decide, h.1, h.2.2.2.2.2.2.2.1, h.2.2.2.2.2.2.2.2.2.2.1⟩

/-! ## Runtime errors in the mutation hooks -/

/-- C9: when the protected call made by `executeHealthChange` reports a runtime
error (a non-zero result), the damage record afterwards is the record given,
in all its fields; the same holds for `executeManaChange`. -/
theorem runtime_error_keeps_damage (iface : LuaScriptInterface σ) (self : CreatureEvent)
    (creature attacker : Nat) (damage : CombatDamage) (s : σ)
    (hres : (iface.reserveScriptEnv s).1 = true)
    (herr : (afterProtectedCall iface self creature attacker damage s).1 ≠ 0) :
    (self.executeHealthChange iface creature attacker damage s).1 = damage ∧
    (self.executeManaChange iface creature attacker damage s).1 = damage := by
  unfold afterProtectedCall at herr
  constructor
  · unfold CreatureEvent.executeHealthChange
    simp [hres, herr]
  · unfold CreatureEvent.executeManaChange
    simp [hres, herr]

/-- C9 at a concrete input: a script that fails with a runtime error. -/
theorem runtime_error_keeps_damage_witness :
    ((specBridge failing 16).reserveScriptEnv LuaEnv.fresh).1 = true ∧
    (afterProtectedCall (specBridge failing 16)
      (mkEvent "hc" CREATURE_EVENT_HEALTHCHANGE 1 false) 7 9 sampleDamage LuaEnv.fresh).1 ≠ 0 ∧
    ((mkEvent "hc" CREATURE_EVENT_HEALTHCHANGE 1 false).executeHealthChange
      (specBridge failing 16) 7 9 sampleDamage LuaEnv.fresh).1 = sampleDamage ∧
    ((mkEvent "hc" CREATURE_EVENT_HEALTHCHANGE 1 false).executeManaChange
      (specBridge failing 16) 7 9 sampleDamage LuaEnv.fresh).1 = sampleDamage :=
  ⟨by decide, by decide,
   runtime_error_keeps_damage (specBridge failing 16)
     (mkEvent "hc" CREATURE_EVENT_HEALTHCHANGE 1 false) 7 9 sampleDamage LuaEnv.fresh
     (by decide) (by decide)⟩

/-! ## Reservation and release -/

theorem keywordCategory_chain (w : String) :
    (match recognizedKeywords.find? (fun kw => kw.1 == w) with
      | some kw => some kw.2
      | none => none) =
    if w = "login" then some CREATURE_EVENT_LOGIN
    else if w = "logout" then some CREATURE_EVENT_LOGOUT
    else if w = "think" then some CREATURE_EVENT_THINK
    else if w = "preparedeath" then some CREATURE_EVENT_PREPAREDEATH
    else if w = "death" then some CREATURE_EVENT_DEATH
    else if w = "kill" then some CREATURE_EVENT_KILL
    else if w = "advance" then some CREATURE_EVENT_ADVANCE
    else if w = "modalwindow" then some CREATURE_EVENT_MODALWINDOW
    else if w = "textedit" then some CREATURE_EVENT_TEXTEDIT
    else if w = "healthchange" then some CREATURE_EVENT_HEALTHCHANGE
    else if w = "manachange" then some CREATURE_EVENT_MANACHANGE
    else if w = "extendedopcode" then some CREATURE_EVENT_EXTENDED_OPCODE
    else none := by
  simp only [recognizedKeywords, List.find?]
  by_cases h1 : w = "login"
  · subst h1; rfl
  by_cases h2 : w = "logout"
  · subst h2; rfl
  by_cases h3 : w = "think"
  · subst h3; rfl
  by_cases h4 : w = "preparedeath"
  · subst h4; rfl
  by_cases h5 : w = "death"
  · subst h5; rfl
  by_cases h6 : w = "kill"
  · subst h6; rfl
  by_cases h7 : w = "advance"
  · subst h7; rfl
  by_cases h8 : w = "modalwindow"
  · subst h8; rfl
  by_cases h9 : w = "textedit"
  · subst h9; rfl
  by_cases h10 : w = "healthchange"
  · subst h10; rfl
  by_cases h11 : w = "manachange"
  · subst h11; rfl
  by_cases h12 : w = "extendedopcode"
  · subst h12; rfl
  have e : ∀ k : String, ¬ w = k → (k == w) = false := by
    intro k hk
    simp only [beq_eq_false_iff_ne, ne_eq]
    exact fun hc => hk hc.symm
  simp only [e _ h1, e _ h2, e _ h3, e _ h4, e _ h5, e _ h6, e _ h7, e _ h8, e _ h9,
    e _ h10, e _ h11, e _ h12, if_neg h1, if_neg h2, if_neg h3, if_neg h4, if_neg h5, if_neg h6,
    if_neg h7, if_neg h8, if_neg h9, if_neg h10, if_neg h11, if_neg h12]

theorem configureEvent_typed (self : CreatureEvent) (node : xml_node) (n v : String)
    (hn : node.attribute "name" = some n) (hv : node.attribute "type" = some v) :
    self.configureEvent node =
      match keywordCategory v with
      | some t => (true, { self with eventName := n, type := t, loaded := true })
      | none => (false, { self with eventName := n }) := by
  unfold CreatureEvent.configureEvent keywordCategory
  rw [keywordCategory_chain]
  simp only [hn, hv, tfs_strcmp]
  generalize asLowerCaseString v = w
  by_cases h1 : w = "login"
  · subst h1; rfl
  by_cases h2 : w = "logout"
  · subst h2; rfl
  by_cases h3 : w = "think"
  · subst h3; rfl
  by_cases h4 : w = "preparedeath"
  · subst h4; rfl
  by_cases h5 : w = "death"
  · subst h5; rfl
  by_cases h6 : w = "kill"
  · subst h6; rfl
  by_cases h7 : w = "advance"
  · subst h7; rfl
  by_cases h8 : w = "modalwindow"
  · subst h8; rfl
  by_cases h9 : w = "textedit"
  · subst h9; rfl
  by_cases h10 : w = "healthchange"
  · subst h10; rfl
  by_cases h11 : w = "manachange"
  · subst h11; rfl
  by_cases h12 : w = "extendedopcode"
  · subst h12; rfl
  simp [h1, h2, h3, h4, h5, h6, h7, h8, h9, h10, h11, h12]

theorem keywordCategory_isSome (v : String) :
    (keywordCategory v).isSome = true ↔
      asLowerCaseString v ∈ recognizedKeywords.map Prod.fst := by
  unfold keywordCategory
  cases h : recognizedKeywords.find? (fun kw => kw.1 == asLowerCaseString v) with
  | some kw =>
    have hm := List.mem_of_find?_eq_some h
    have hp := List.find?_some h
    simp only [beq_iff_eq] at hp
    simp only [Option.isSome_some, true_iff, List.mem_map]
    exact ⟨kw, hm, hp⟩
  | none =>
    simp only [Option.isSome_none, Bool.false_eq_true, false_iff, List.mem_map, not_exists,
      not_and]
    intro kw hm hk
    have := List.find?_eq_none.mp h kw hm
    simp [hk] at this

/-- C7, amended: `configureEvent` returns `true` exactly when the node has a
`name` attribute, has a `type` attribute, and the `type` value in lower case is
one of the recognised keywords; it then sets the name, sets the category to the
one of the matched keyword and sets `loaded`.  The recognised keywords are the
twelve of the list `login, logout, think, preparedeath, death, kill, advance,
modalwindow, textedit, healthchange, manachange, extendedopcode`. -/
theorem configureEvent_accepts_exactly_keywords (self : CreatureEvent) (node : xml_node) :
    ((self.configureEvent node).1 = true ↔
      ∃ n v t, node.attribute "name" = some n ∧ node.attribute "type" = some v ∧
        keywordCategory v = some t) ∧
    (∀ n v t, node.attribute "name" = some n → node.attribute "type" = some v →
      keywordCategory v = some t →
      self.configureEvent node = (true, { self with eventName := n, type := t, loaded := true })) ∧
    (∀ v, (keywordCategory v).isSome = true ↔
      asLowerCaseString v ∈ recognizedKeywords.map Prod.fst) ∧
    recognizedKeywords.map Prod.fst =
      ["login", "logout", "think", "preparedeath", "death", "kill", "advance", "modalwindow",
       "textedit", "healthchange", "manachange", "extendedopcode"] ∧
    recognizedKeywords.length = 12 := by
  refine ⟨?_, ?_, keywordCategory_isSome, rfl, rfl⟩
  · cases hn : node.attribute "name" with
    | none => simp [CreatureEvent.configureEvent, hn]
    | some n =>
      cases hv : node.attribute "type" with
      | none => simp [CreatureEvent.configureEvent, hn, hv]
      | some v =>
        rw [configureEvent_typed self node n v hn hv]
        cases hk : keywordCategory v <;> simp [hk]
  · intro n v t hn hv hk
    rw [configureEvent_typed self node n v hn hv, hk]

/-- C7 at concrete inputs: `LoGin` is accepted as `login`; `none` is not a
keyword. -/
theorem configureEvent_accepts_exactly_keywords_witness :
    (CreatureEvent.new 1).configureEvent ⟨[("name", "first"), ("type", "LoGin")]⟩ =
      (true, { CreatureEvent.new 1 with
        eventName := "first", type := CREATURE_EVENT_LOGIN, loaded := true }) ∧
    ((CreatureEvent.new 1).configureEvent ⟨[("name", "first"), ("type", "none")]⟩).1 = false :=
  ⟨(configureEvent_accepts_exactly_keywords (CreatureEvent.new 1)
      ⟨[("name", "first"), ("type", "LoGin")]⟩).2.1 "first" "LoGin" CREATURE_EVENT_LOGIN
      (by decide) (by decide) (by decide),
   by decide⟩

theorem attribute_type_of_pair (n v : String) :
    xml_node.attribute ⟨[("name", n), ("type", v)]⟩ "type" = some v ∧
    xml_node.attribute ⟨[("name", n), ("type", v)]⟩ "name" = some n := by
  constructor
  · have : (("name" : String) == "type") = false := by decide
    simp [xml_node.attribute, List.find?, this]
  · simp [xml_node.attribute, List.find?]

/-- C7 as stated fails in its count: there is no list of thirteen keywords,
distinct when compared without regard to case, such that `configureEvent`
accepts exactly the `type` values equal to one of them without regard to
case. -/
theorem thirteen_keywords_refuted :
    ¬ ∃ K : List String, K.length = 13 ∧ (K.map asLowerCaseString).Nodup ∧
      ∀ v : String,
        ((CreatureEvent.new 0).configureEvent ⟨[("name", "n"), ("type", v)]⟩).1 = true ↔
          ∃ k, k ∈ K ∧ asLowerCaseString v = asLowerCaseString k := by
  rintro ⟨K, hlen, hnodup, hK⟩
  have hsub : K.map asLowerCaseString ⊆ recognizedKeywords.map Prod.fst := by
    intro x hx
    obtain ⟨k, hk, rfl⟩ := List.mem_map.mp hx
    have hacc := (hK k).mpr ⟨k, hk, rfl⟩
    obtain ⟨ht, hn⟩ := attribute_type_of_pair "n" k
    rw [configureEvent_typed (CreatureEvent.new 0) _ "n" k hn ht] at hacc
    apply (keywordCategory_isSome k).mp
    cases hc : keywordCategory k with
    | none => rw [hc] at hacc; simp at hacc
    | some t => rfl
  have hle := (hnodup.subperm hsub).length_le
  simp only [List.length_map, hlen] at hle
  have : recognizedKeywords.length = 12 := rfl
  omega

/-! ## Rejected nodes -/

/-- C6: for a node that lacks the `name` attribute, lacks the `type` attribute
or has a `type` that is no recognised keyword, `configureEvent` on a freshly
constructed event returns `false`, and `registerEvent` with that event returns
`false` and leaves the registry, all four containers, as it was. -/
theorem rejected_node_adds_nothing (self : CreatureEvents) (interface : Nat) (node : xml_node)
    (h : node.attribute "name" = none ∨ node.attribute "type" = none ∨
      ∃ v, node.attribute "type" = some v ∧ keywordCategory v = none) :
    ((CreatureEvent.new interface).configureEvent node).1 = false ∧
    self.registerEvent ((CreatureEvent.new interface).configureEvent node).2 node
      = (false, self) := by
  cases hn : node.attribute "name" with
  | none =>
    simp [CreatureEvent.configureEvent, hn, CreatureEvents.registerEvent,
      CreatureEvent.getEventType, CreatureEvent.new]
  | some n =>
    cases hv : node.attribute "type" with
    | none =>
      simp [CreatureEvent.configureEvent, hn, hv, CreatureEvents.registerEvent,
        CreatureEvent.getEventType, CreatureEvent.new]
    | some v =>
      have hk : keywordCategory v = none := by
        rcases h with h | h | ⟨w, hw, hk⟩
        · rw [hn] at h; simp at h
        · rw [hv] at h; simp at h
        · rw [hv] at hw
          cases hw
          exact hk
      rw [configureEvent_typed _ node n v hn hv, hk]
      simp [CreatureEvents.registerEvent, CreatureEvent.getEventType, CreatureEvent.new]

/-- C6 at concrete inputs: a node without `name`, a node without `type`, and a
node whose `type` is no keyword, against a registry holding one login hook. -/
theorem rejected_node_adds_nothing_witness :
    xml_node.attribute ⟨[("type", "login")]⟩ "name" = none ∧
    ({ CreatureEvents.empty with loginEvents := [mkEvent "" CREATURE_EVENT_LOGIN 1 false] }
      : CreatureEvents).registerEvent
        ((CreatureEvent.new 1).configureEvent ⟨[("type", "login")]⟩).2 ⟨[("type", "login")]⟩
      = (false, { CreatureEvents.empty with
          loginEvents := [mkEvent "" CREATURE_EVENT_LOGIN 1 false] }) ∧
    ((CreatureEvent.new 1).configureEvent ⟨[("name", "walker")]⟩).1 = false ∧
    ((CreatureEvent.new 1).configureEvent ⟨[("name", "walker"), ("type", "walk")]⟩).1 = false :=
  ⟨by decide,
   (rejected_node_adds_nothing _ 1 ⟨[("type", "login")]⟩ (Or.inl (by decide))).2,
   (rejected_node_adds_nothing CreatureEvents.empty 1 ⟨[("name", "walker")]⟩
     (Or.inr (Or.inl (by decide)))).1,
   (rejected_node_adds_nothing CreatureEvents.empty 1 ⟨[("name", "walker"), ("type", "walk")]⟩
     (Or.inr (Or.inr ⟨"walk", by decide, by decide⟩))).1⟩

/-! ## Load state -/

/-- C11, amended: for an event with `loaded = true`, `configureEvent` with any
node, accepted or rejected, leaves `loaded` at `true`; `copyEvent` gives
`loaded` the value it has in the event copied from, so that it is `true`
afterwards exactly when that event is loaded. -/
theorem loaded_after_configure_and_copy (self other : CreatureEvent) (node : xml_node)
    (h : self.loaded = true) :
    (self.configureEvent node).2.loaded = true ∧
    (self.copyEvent other).loaded = other.loaded ∧
    ((self.copyEvent other).loaded = true ↔ other.loaded = true) := by
  refine ⟨?_, rfl, Iff.rfl⟩
  cases hn : node.attribute "name" with
  | none => simpa [CreatureEvent.configureEvent, hn] using h
  | some n =>
    cases hv : node.attribute "type" with
    | none => simpa [CreatureEvent.configureEvent, hn, hv] using h
    | some v =>
      rw [configureEvent_typed self node n v hn hv]
      cases keywordCategory v with
      | none => exact h
      | some t => rfl

/-- C11 at concrete inputs: a loaded `kill` event stays loaded under a rejected
node and under an accepted one, and under a copy from a loaded event. -/
theorem loaded_after_configure_and_copy_witness :
    (mkEvent "guard" CREATURE_EVENT_KILL 1 false).loaded = true ∧
    (((mkEvent "guard" CREATURE_EVENT_KILL 1 false).configureEvent
      ⟨[("name", "guard")]⟩).1 = false ∧
     ((mkEvent "guard" CREATURE_EVENT_KILL 1 false).configureEvent
      ⟨[("name", "guard")]⟩).2.loaded = true) ∧
    (((mkEvent "guard" CREATURE_EVENT_KILL 1 false).configureEvent
      ⟨[("name", "guard"), ("type", "think")]⟩).1 = true ∧
     ((mkEvent "guard" CREATURE_EVENT_KILL 1 false).configureEvent
      ⟨[("name", "guard"), ("type", "think")]⟩).2.loaded = true) ∧
    ((mkEvent "guard" CREATURE_EVENT_KILL 1 false).copyEvent
      (mkEvent "heal" CREATURE_EVENT_HEALTHCHANGE 2 true)).loaded = true :=
  ⟨by decide,
   ⟨by decide,
    (loaded_after_configure_and_copy (mkEvent "guard" CREATURE_EVENT_KILL 1 false)
      (CreatureEvent.new 1) ⟨[("name", "guard")]⟩ (by decide)).1⟩,
   ⟨by decide,
    (loaded_after_configure_and_copy (mkEvent "guard" CREATURE_EVENT_KILL 1 false)
      (CreatureEvent.new 1) ⟨[("name", "guard"), ("type", "think")]⟩ (by decide)).1⟩,
   (loaded_after_configure_and_copy (mkEvent "guard" CREATURE_EVENT_KILL 1 false)
      (mkEvent "heal" CREATURE_EVENT_HEALTHCHANGE 2 true) ⟨[]⟩ (by decide)).2.1⟩

/-- C11 as stated fails for `copyEvent`: a loaded event that copies from a
freshly constructed, not loaded, event is not loaded afterwards. -/
theorem copyEvent_from_unloaded_unloads :
    (mkEvent "guard" CREATURE_EVENT_KILL 1 false).loaded = true ∧
    (CreatureEvent.new 1).loaded = false ∧
    ((mkEvent "guard" CREATURE_EVENT_KILL 1 false).copyEvent (CreatureEvent.new 1)).loaded
      = false := by
  decide

end CreatureScripts
